import Mathlib

/-
Verification of the balatro-joker-bot repository against its specification.

The development shallowly embeds the Python sources:
  * src/domain/models.py          (JokerCard and its validation)
  * src/database/balatro_repository.py (BalatroRepository: cached CRUD layer)
  * src/processors/comment_processor.py (CommentProcessor: match extraction)
  * src/services/reddit_service.py (RedditService._retry_on_failure)
  * src/application/joker_bot.py and src/reddit.py (the two control loops)

Pure functions become Lean functions; the psycopg2-backed store is modelled
as an explicit table of rows; the cachetools.LRUCache is modelled as an
association list (none of the executions considered here approach its
1024-entry capacity, so eviction never fires); Python exceptions become
Except / Option values threaded explicitly.
-/

/-! ## String primitives

Python's `str.lower` / `str.strip` and SQL's `LOWER` / `ORDER BY name` are
modelled over `String.data` character lists (the texts in this repository
are ASCII), because the core `String` functions do not reduce in the kernel.
-/

/-- ASCII lower-casing of one character; models Python `str.lower` and SQL
`LOWER` on the character range this repository uses. -/
def lowerChar (c : Char) : Char :=
  if 'A' ≤ c ∧ c ≤ 'Z' then Char.ofNat (c.toNat + 32) else c

/-- Lower-case a string (models `str.lower()` / SQL `LOWER`). -/
def lowerStr (s : String) : String := ⟨s.data.map lowerChar⟩

/-- Strip leading and trailing whitespace from a character list. -/
def trimChars (l : List Char) : List Char :=
  ((l.dropWhile Char.isWhitespace).reverse.dropWhile Char.isWhitespace).reverse

/-- Models Python `str.strip()`: drop surrounding whitespace. -/
def trimStr (s : String) : String := ⟨trimChars s.data⟩

/-- Byte-wise lexicographic comparison of character lists; models the
ordering used by `ORDER BY name`. -/
def charListLe : List Char → List Char → Bool
  | [], _ => true
  | _ :: _, [] => false
  | a :: as, b :: bs =>
    if a.toNat < b.toNat then true
    else if b.toNat < a.toNat then false
    else charListLe as bs

/-- Lexicographic order on strings, as a Bool. -/
def strLe (a b : String) : Bool := charListLe a.data b.data

/-- Lexicographic order on strings, as a relation (for sortedness claims). -/
def strLeRel (a b : String) : Prop := strLe a b = true

instance : DecidableRel strLeRel := fun a b => by
  unfold strLeRel; infer_instance

theorem charListLe_total (l m : List Char) :
    charListLe l m = true ∨ charListLe m l = true := by
  induction l generalizing m with
  | nil => left; rfl
  | cons a as ih =>
    cases m with
    | nil => right; rfl
    | cons b bs =>
      rcases Nat.lt_trichotomy a.toNat b.toNat with h | h | h
      · left
        simp only [charListLe]
        rw [if_pos h]
      · rcases ih bs with h' | h'
        · left
          simp only [charListLe]
          rw [if_neg (by omega), if_neg (by omega)]
          exact h'
        · right
          simp only [charListLe]
          rw [if_neg (by omega), if_neg (by omega)]
          exact h'
      · right
        simp only [charListLe]
        rw [if_pos h]

theorem charListLe_trans (l m n : List Char) (h1 : charListLe l m = true)
    (h2 : charListLe m n = true) : charListLe l n = true := by
  induction l generalizing m n with
  | nil => rfl
  | cons a as ih =>
    cases m with
    | nil => simp [charListLe] at h1
    | cons b bs =>
      cases n with
      | nil => simp [charListLe] at h2
      | cons c cs =>
        simp only [charListLe] at h1 h2 ⊢
        rcases Nat.lt_trichotomy a.toNat b.toNat with hab | hab | hab
        · rcases Nat.lt_trichotomy b.toNat c.toNat with hbc | hbc | hbc
          · rw [if_pos (by omega)]
          · rw [if_pos (by omega)]
          · rw [if_neg (by omega), if_pos (by omega)] at h2
            exact absurd h2 (by simp)
        · rcases Nat.lt_trichotomy b.toNat c.toNat with hbc | hbc | hbc
          · rw [if_pos (by omega)]
          · rw [if_neg (by omega), if_neg (by omega)] at h1 h2 ⊢
            exact ih bs cs h1 h2
          · rw [if_neg (by omega), if_pos (by omega)] at h2
            exact absurd h2 (by simp)
        · rw [if_neg (by omega), if_pos (by omega)] at h1
          exact absurd h1 (by simp)

instance : IsTotal String strLeRel :=
  ⟨fun a b => charListLe_total a.data b.data⟩

instance : IsTrans String strLeRel :=
  ⟨fun _ _ _ h1 h2 => charListLe_trans _ _ _ h1 h2⟩

/-! ## Domain model — src/domain/models.py

`JokerCard` carries the five content fields; the two timestamp fields are
excluded from `as_dict`/`from_dict` and from every operation modelled here,
so they are omitted. -/

/-- A joker record (src/domain/models.py, `JokerCard`). -/
structure JokerCard where
  name : String
  effect : String
  rarity : String
  cost : String
  availability : String
deriving DecidableEq

/-- `JokerCard._is_length_valid(value, min_length, max_length)`: strips the
value and checks its length bounds.  Python's `if max_length:` treats the
value `0` as absent, which the model preserves. -/
def is_length_valid (value : String) (minLength : Nat) (maxLength : Option Nat) : Bool :=
  match maxLength with
  | some m =>
    if m ≠ 0 then
      decide (minLength ≤ (trimStr value).length ∧ (trimStr value).length ≤ m)
    else decide (minLength ≤ (trimStr value).length)
  | none => decide (minLength ≤ (trimStr value).length)

/-- `JokerCard.validate`: conjunction of the five per-field checks, in
source order.  Each Python element `self.f and isinstance(self.f, str) and
self._is_length_valid(...)` becomes `f ≠ "" && is_length_valid ...` (the
`isinstance` test is always true in the typed model; a Python empty string
is falsy).  NOTE the availability element checks the length of `self.name`,
exactly as the source does on line 107 of models.py. -/
def JokerCard.validate (j : JokerCard) : Bool :=
  (decide (j.name ≠ "") && is_length_valid j.name 1 (some 50)) &&
  (decide (j.effect ≠ "") && is_length_valid j.effect 1 none) &&
  (decide (j.rarity ≠ "") && is_length_valid j.rarity 1 (some 10)) &&
  (decide (j.cost ≠ "") && is_length_valid j.cost 1 (some 5)) &&
  (decide (j.availability ≠ "") && is_length_valid j.name 1 none)

/-- `JokerCard.from_dict` strips whitespace from every string field before
instantiation; applied by `get_joker_information` to each row it reads. -/
def stripCard (j : JokerCard) : JokerCard :=
  ⟨trimStr j.name, trimStr j.effect, trimStr j.rarity, trimStr j.cost,
   trimStr j.availability⟩

/-! ## Repository model — src/database/balatro_repository.py

The `jokers` table is a list of rows.  The single `cachetools.LRUCache`
holds entries under keys `"joker:{name}"` (a `JokerCard`) and under the key
`"joker_list"` (a name list); since the two key shapes never collide they
are modelled as two fields.  `cardCache` is keyed by the `{name}` part of
the cache key, exactly the (raw or lower-cased) string the source
interpolates. -/

/-- State of one `BalatroRepository`. -/
structure RepoState where
  cardCache : List (String × JokerCard)
  listCache : Option (List String)
  table : List JokerCard
deriving DecidableEq

/-- Case-insensitive name comparison, models `LOWER(name) = LOWER(%s)`. -/
def lowerEq (a b : String) : Bool := lowerStr a == lowerStr b

/-- `SELECT ... FROM jokers WHERE LOWER(name) = LOWER(%s)`: first matching
row. -/
def store_get (table : List JokerCard) (name : String) : Option JokerCard :=
  table.find? (fun c => lowerEq c.name name)

/-- `INSERT ... ON CONFLICT (name) DO UPDATE`: the UNIQUE constraint is on
the exact `name` column, so conflict means exact name equality; on conflict
the non-name fields are replaced, otherwise the row is appended. -/
def store_upsert (table : List JokerCard) (j : JokerCard) : List JokerCard :=
  if table.any (fun c => c.name == j.name) then
    table.map (fun c => if c.name == j.name then j else c)
  else table ++ [j]

/-- `DELETE FROM jokers WHERE LOWER(name) = LOWER(%s)`: remaining rows and
the affected row count (`cursor.rowcount`). -/
def store_delete (table : List JokerCard) (name : String) :
    List JokerCard × Nat :=
  (table.filter (fun c => !(lowerEq c.name name)),
   (table.filter (fun c => lowerEq c.name name)).length)

/-- `SELECT name FROM jokers ORDER BY name`: all names, ascending. -/
def store_names (table : List JokerCard) : List String :=
  List.insertionSort strLeRel (table.map JokerCard.name)

/-- `self.cache.pop(key, None)` on the per-name entries. -/
def popKey (cache : List (String × JokerCard)) (k : String) :
    List (String × JokerCard) :=
  cache.filter (fun e => e.1 != k)

/-- `self.cache[key] = v` on the per-name entries. -/
def setKey (cache : List (String × JokerCard)) (k : String) (v : JokerCard) :
    List (String × JokerCard) :=
  (k, v) :: popKey cache k

/-- `BalatroRepository.get_joker_information(name)`: cache key is
`f"joker:{name}"` with the *raw* `name` (the read path never normalizes);
on a miss the row is fetched case-insensitively, passed through
`JokerCard.from_dict` (which strips fields), cached and returned. -/
def get_joker_information (s : RepoState) (name : String) :
    Option JokerCard × RepoState :=
  match s.cardCache.lookup name with
  | some j => (some j, s)
  | none =>
    match store_get s.table name with
    | some row =>
      let j := stripCard row
      (some j, { s with cardCache := setKey s.cardCache name j })
    | none => (none, s)

/-- `BalatroRepository.get_joker_name_list()`: served from the
`"joker_list"` cache entry when present; only on a miss does it query the
store (sorted ascending) and repopulate the entry. -/
def get_joker_name_list (s : RepoState) : List String × RepoState :=
  match s.listCache with
  | some l => (l, s)
  | none =>
    let names := store_names s.table
    (names, { s with listCache := some names })

/-- `BalatroRepository.add_joker(joker)`: write-through upsert, then pops
the cache keys `f"joker:{joker.name.lower()}"` (note: lower-cased, unlike
the read path) and `"joker_list"`. -/
def add_joker (s : RepoState) (j : JokerCard) : RepoState :=
  { cardCache := popKey s.cardCache (lowerStr j.name)
    listCache := none
    table := store_upsert s.table j }

/-- `BalatroRepository.delete_joker(name)`: write-through delete; the two
cache entries are popped only when `affected` is truthy (at least one row
was deleted); returns `True` in every non-error case. -/
def delete_joker (s : RepoState) (name : String) : Bool × RepoState :=
  if (store_delete s.table name).2 ≠ 0 then
    (true, { cardCache := popKey s.cardCache (lowerStr name)
             listCache := none
             table := (store_delete s.table name).1 })
  else
    (true, { s with table := (store_delete s.table name).1 })

/-! ## Concrete repository fixtures -/

/-- A stored record for the name "Steel Joker" (the pre-upsert version). -/
def staleSteel : JokerCard :=
  ⟨"Steel Joker", "Gives X0.2 Mult", "Uncommon", "7", "Available from start"⟩

/-- The record being upserted for the same name (new effect text). -/
def freshSteel : JokerCard :=
  ⟨"Steel Joker", "This Joker gains X0.1 Mult", "Uncommon", "7",
   "Available from start"⟩

/-- Repository state in which "Steel Joker" was previously read and is
therefore cached under the raw-capitalization key `"joker:Steel Joker"`. -/
def c1State : RepoState := ⟨[("Steel Joker", staleSteel)], none, [staleSteel]⟩

/-- A second stored record, used by the name-list fixtures. -/
def abcCard : JokerCard := ⟨"abc", "Effect a", "Common", "2", "Shop"⟩

/-- A third stored record, written at store level between two list reads. -/
def bcdCard : JokerCard := ⟨"bcd", "Effect b", "Rare", "8", "Shop"⟩

/-! ## Helper lemmas -/

theorem lookup_popKey (cache : List (String × JokerCard)) (k : String) :
    (popKey cache k).lookup k = none := by
  induction cache with
  | nil => rfl
  | cons e rest ih =>
    simp only [popKey, List.filter_cons] at ih ⊢
    by_cases h : e.1 = k
    · rw [if_neg (by simp [h])]
      exact ih
    · rw [if_pos (by simp [h])]
      simp only [List.lookup]
      have hk : (k == e.1) = false := by
        rw [beq_eq_false_iff_ne]
        exact fun hk => h hk.symm
      rw [hk]
      exact ih

theorem delete_joker_fst (s : RepoState) (name : String) :
    (delete_joker s name).1 = true := by
  by_cases h : (store_delete s.table name).2 = 0 <;> simp [delete_joker, h]

/-! ## Claim theorems — repository -/

/-- C1: `add_joker(r)` immediately followed by `get_joker_information
(r.name)` does NOT always return `r`: the read path builds its cache key
from the raw name while the upsert invalidates only the lower-cased key, so
a record cached under its original capitalization survives the upsert and
the stale pre-upsert copy is served.  At the failing input below, `r =
freshSteel` is a valid record, the prior state caches the same name under
the key "Steel Joker", and the round trip returns the stale `staleSteel`. -/
theorem c1_upsert_get_serves_stale_cached_copy :
    JokerCard.validate freshSteel = true ∧
    (get_joker_information (add_joker c1State freshSteel) "Steel Joker").1 =
      some staleSteel ∧
    staleSteel ≠ freshSteel := by
  refine ⟨by decide, by decide, by decide⟩

/-- C7 counterexample: `get_joker_name_list` does not re-read the store on
every call.  Starting from an empty cache over a one-row table, a first
call caches `["abc"]`; after a store-level write of `bcdCard` bypassing the
repository, the second call still returns the cached `["abc"]`, not the
store's current names `["abc", "bcd"]`. -/
theorem c7_name_list_serves_stale_cached_copy :
    (get_joker_name_list
        { (get_joker_name_list ⟨[], none, [abcCard]⟩).2 with
          table := store_upsert
            (get_joker_name_list ⟨[], none, [abcCard]⟩).2.table bcdCard }).1 =
      ["abc"] ∧
    store_names
        (store_upsert (get_joker_name_list ⟨[], none, [abcCard]⟩).2.table
          bcdCard) = ["abc", "bcd"] ∧
    (["abc"] : List String) ≠ ["abc", "bcd"] := by
  refine ⟨by decide, by decide, by decide⟩

/-- C7 amended: on a cache miss (no `"joker_list"` entry),
`get_joker_name_list` reads the full name list from the store, returns it
sorted ascending, and caches exactly that list without touching the table;
when the entry is present it is served as-is (see the counterexample). -/
theorem c7_name_list_miss_reads_store_sorted (s : RepoState)
    (h : s.listCache = none) :
    (get_joker_name_list s).1 = store_names s.table ∧
    List.Sorted strLeRel (get_joker_name_list s).1 ∧
    (get_joker_name_list s).2.listCache = some (store_names s.table) ∧
    (get_joker_name_list s).2.table = s.table := by
  refine ⟨?_, ?_, ?_, ?_⟩ <;>
    simp [get_joker_name_list, h, store_names, List.sorted_insertionSort]

/-- C7 amended, witness: the miss-path read on a concrete two-row state. -/
theorem c7_name_list_miss_witness :
    (get_joker_name_list ⟨[], none, [bcdCard, abcCard]⟩).1 =
      store_names [bcdCard, abcCard] ∧
    List.Sorted strLeRel (get_joker_name_list ⟨[], none, [bcdCard, abcCard]⟩).1 ∧
    (get_joker_name_list ⟨[], none, [bcdCard, abcCard]⟩).2.listCache =
      some (store_names [bcdCard, abcCard]) ∧
    (get_joker_name_list ⟨[], none, [bcdCard, abcCard]⟩).2.table =
      [bcdCard, abcCard] :=
  c7_name_list_miss_reads_store_sorted ⟨[], none, [bcdCard, abcCard]⟩ rfl

/-- C10 counterexample: when the store reports zero affected rows, the two
cache entries are NOT dropped.  With "abc" cached (per-name and in the name
list) but absent from the table, `delete_joker "abc"` returns success yet
both entries survive. -/
theorem c10_delete_keeps_cache_when_zero_rows :
    (delete_joker ⟨[("abc", abcCard)], some ["abc"], []⟩ "abc").1 = true ∧
    (delete_joker ⟨[("abc", abcCard)], some ["abc"], []⟩ "abc").2.cardCache =
      [("abc", abcCard)] ∧
    (delete_joker ⟨[("abc", abcCard)], some ["abc"], []⟩ "abc").2.listCache =
      some ["abc"] := by
  refine ⟨by decide, by decide, by decide⟩

/-- C10 amended: `delete_joker` writes the delete through and returns
success whether or not the name existed — two consecutive calls both return
success — but it invalidates the per-name entry (keyed by the lower-cased
name) and the name-list entry only when the store reports at least one
affected row. -/
theorem c10_delete_success_and_conditional_invalidation (s : RepoState)
    (name : String) :
    (delete_joker s name).1 = true ∧
    (delete_joker (delete_joker s name).2 name).1 = true ∧
    (0 < (store_delete s.table name).2 →
      (delete_joker s name).2.cardCache.lookup (lowerStr name) = none ∧
      (delete_joker s name).2.listCache = none) := by
  refine ⟨delete_joker_fst s name, delete_joker_fst _ name, ?_⟩
  intro h
  have hne : (store_delete s.table name).2 ≠ 0 := by omega
  simp only [delete_joker, if_pos hne]
  exact ⟨lookup_popKey s.cardCache (lowerStr name), trivial⟩

/-- C10 amended, witness: deleting an existing row invalidates both cache
entries and both consecutive deletes succeed. -/
theorem c10_delete_amended_witness :
    (delete_joker ⟨[("abc", abcCard)], some ["abc"], [abcCard]⟩ "abc").1 = true ∧
    (delete_joker
        (delete_joker ⟨[("abc", abcCard)], some ["abc"], [abcCard]⟩ "abc").2
        "abc").1 = true ∧
    ((delete_joker ⟨[("abc", abcCard)], some ["abc"], [abcCard]⟩
        "abc").2.cardCache.lookup (lowerStr "abc") = none ∧
      (delete_joker ⟨[("abc", abcCard)], some ["abc"], [abcCard]⟩
        "abc").2.listCache = none) := by
  have h := c10_delete_success_and_conditional_invalidation
    ⟨[("abc", abcCard)], some ["abc"], [abcCard]⟩ "abc"
  exact ⟨h.1, h.2.1, h.2.2 (by decide)⟩

/-! ## Comment processor model — src/processors/comment_processor.py

Python attribute access is partial: reading an attribute that the object
does not define raises `AttributeError`.  `CommentProcessorConfig` declares
exactly the fields `match_pattern`, `match_phrases`, `bot_username`,
`user_blacklist`, `ignore_case`, `max_matches` and `strip_whitespace`; a
`CommentProcessor` instance owns exactly `config`, `_compiled_pattern` and
`logger` (assigned in `__init__`, in that order). -/

/-- The Python exceptions these code paths can surface. -/
inductive PyError
  | attributeError (attr : String)
  | valueError (msg : String)
  | reError
  | typeError
deriving DecidableEq

/-- Configuration dataclass (fields as declared in the source). -/
structure CommentProcessorConfig where
  match_pattern : String
  match_phrases : List String
  bot_username : String
  user_blacklist : List String
  ignore_case : Bool
  max_matches : Nat
  strip_whitespace : Bool
deriving DecidableEq

/-- The default `match_pattern`, `r"\\?\[\\?\[(.*?)\\?\]\\?\]"`: double
brackets with each bracket optionally preceded by a backslash. -/
def default_match_pattern : String := "\\\\?\\[\\\\?\\[(.*?)\\\\?\\]\\\\?\\]"

/-- Result of `re.compile`: the pattern string plus the IGNORECASE flag. -/
structure CompiledPattern where
  pattern : String
  ignoreCase : Bool
deriving DecidableEq

/-- `self.config.joker_pattern` inside `_compile_pattern`: `joker_pattern`
is not among the dataclass fields listed above (the field storing the
pattern is `match_pattern`), so this attribute access raises
`AttributeError` for every config value. -/
def config_joker_pattern (_cfg : CommentProcessorConfig) : Except PyError String :=
  .error (.attributeError "joker_pattern")

/-- `CommentProcessor._compile_pattern`: computes the flags, then tries
`re.compile(self.config.joker_pattern, flags)`.  The handler catches only
`re.error` (turning it into `ValueError`); any other exception — here the
`AttributeError` — propagates.  (Had the handler fired, its own
`self.logger` read would also raise, since `__init__` assigns `logger`
only after `_compile_pattern` returns.) -/
def compile_pattern (cfg : CommentProcessorConfig) : Except PyError CompiledPattern :=
  let flags := cfg.ignore_case
  match config_joker_pattern cfg with
  | .ok pat => .ok ⟨pat, flags⟩
  | .error PyError.reError => .error (.attributeError "logger")
  | .error e => .error e

/-- A comment processor instance: the attributes `__init__` would assign
(the logger carries no state and is omitted).  `compiled_pattern` models
the `_compiled_pattern` attribute. -/
structure CommentProcessor where
  config : CommentProcessorConfig
  compiled_pattern : CompiledPattern

/-- `CommentProcessor.__init__`: stores the config, then computes
`self._compiled_pattern = self._compile_pattern()`; an exception there
aborts construction. -/
def comment_processor_init (cfg : CommentProcessorConfig) :
    Except PyError CommentProcessor :=
  match compile_pattern cfg with
  | .error e => .error e
  | .ok p => .ok ⟨cfg, p⟩

/-- A Reddit comment as the processor sees it: `author` is `none` when
`comment.author` is Python `None` (reading `.name` on it raises), and
`body` is `none` when the body attribute is `None`. -/
structure RComment where
  id : String
  author : Option String
  body : Option String
deriving DecidableEq

/-- `self.user_blacklist` inside `should_process_comment`: the instance
attributes are exactly `config`, `_compiled_pattern` and `logger` (the
blacklist lives at `self.config.user_blacklist`), so this access raises
`AttributeError`. -/
def self_user_blacklist : Except PyError (List String) :=
  .error (.attributeError "user_blacklist")

/-- The `try` body of `should_process_comment`: Python builds the
five-element list eagerly, left to right, so the first raising element
aborts the whole `all([...])`. -/
def should_process_body (p : CommentProcessor) (c : RComment) :
    Except PyError Bool := do
  let check1 := true
  let authorName ← match c.author with
    | some n => Except.ok n
    | none => Except.error (PyError.attributeError "name")
  let check2 := authorName != p.config.bot_username
  let blacklist ← self_user_blacklist
  let check3 := !(blacklist.contains authorName)
  let check4 := c.body.isSome
  let check5 := c.author.isSome
  return (check1 && check2 && check3 && check4 && check5)

/-- `CommentProcessor.should_process_comment`: the `except Exception`
handler logs and returns `False` (fail closed). -/
def should_process_comment (p : CommentProcessor) (c : RComment) : Bool :=
  match should_process_body p c with
  | .ok b => b
  | .error _ => false

/-- One step of the match grammar: `\\?\[\\?\[` — an opening double
bracket, each bracket optionally preceded by a backslash.  Returns the
remainder after the opener. -/
def matchOpen : List Char → Option (List Char)
  | '[' :: '[' :: rest => some rest
  | '[' :: '\\' :: '[' :: rest => some rest
  | '\\' :: '[' :: '[' :: rest => some rest
  | '\\' :: '[' :: '\\' :: '[' :: rest => some rest
  | _ => none

/-- The closing delimiter `\\?\]\\?\]`; returns the remainder after it. -/
def matchClose : List Char → Option (List Char)
  | ']' :: ']' :: rest => some rest
  | ']' :: '\\' :: ']' :: rest => some rest
  | '\\' :: ']' :: ']' :: rest => some rest
  | '\\' :: ']' :: '\\' :: ']' :: rest => some rest
  | _ => none

/-- Lazy capture `(.*?)`: take characters up to the earliest closing
delimiter; returns the captured group and the remainder after the close. -/
def scanClose : List Char → Option (List Char × List Char)
  | [] => none
  | c :: rest =>
    match matchClose (c :: rest) with
    | some rem => some ([], rem)
    | none =>
      match scanClose rest with
      | some (cap, rem) => some (c :: cap, rem)
      | none => none

/-- `finditer` over the text with the default double-bracket pattern: scan
left to right, emit each captured group, resume after the match.  The
pattern contains no letters, so the IGNORECASE flag does not affect it.
Fuel is the text length; every emitted match consumes at least one
character. -/
def scanMatches : Nat → List Char → List (List Char)
  | 0, _ => []
  | _ + 1, [] => []
  | fuel + 1, c :: rest =>
    match matchOpen (c :: rest) with
    | some afterOpen =>
      match scanClose afterOpen with
      | some (cap, rem) => cap :: scanMatches fuel rem
      | none => []
    | none => scanMatches fuel rest

/-- All group-1 captures of the default pattern in reading order. -/
def findBracketMatches (s : String) : List String :=
  (scanMatches s.data.length s.data).map (fun cs => ⟨cs⟩)

/-- `CommentProcessor._clean_match`: strip surrounding whitespace when
configured. -/
def clean_match (cfg : CommentProcessorConfig) (m : String) : String :=
  if cfg.strip_whitespace then trimStr m else m

/-- `CommentProcessor._validate_match`: lower-cased membership in the
configured phrase list. -/
def validate_match (cfg : CommentProcessorConfig) (m : String) : Bool :=
  cfg.match_phrases.contains (lowerStr m)

/-- The `for match in matches` loop of `extract_match_names`: the Python
set `valid_matches` is modelled as a duplicate-free list in insertion
order (contents and size agree with the set); the loop breaks as soon as
the set already holds `max_matches` entries, before evaluating the next
candidate.  Note the set stores `cleaned_match` as-is — NOT lower-cased —
while validation compares its lower-casing. -/
def matchLoop (cfg : CommentProcessorConfig) (acc : List String) :
    List String → List String
  | [] => acc
  | m :: rest =>
    if cfg.max_matches ≤ acc.length then acc
    else
      let cleaned := clean_match cfg m
      if validate_match cfg cleaned then
        if acc.contains cleaned then matchLoop cfg acc rest
        else matchLoop cfg (acc ++ [cleaned]) rest
      else matchLoop cfg acc rest

/-- The possible Python return values of `extract_match_names`: the typed
`List[str]` annotation notwithstanding, the function can return a list, a
set, or fall off the end of the `try` block and return `None`. -/
inductive PyReturn
  | pyList (l : List String)
  | pySet (l : List String)
  | pyNone
deriving DecidableEq

/-- `CommentProcessor.extract_match_names`: if the gate fails the function
returns `[]`; otherwise the `try` block iterates the matches — but it
contains no `return` statement, so on success Python yields `None` and the
collected set is discarded; `finditer` applied to a `None` body raises
inside the `try` and the handler returns `set()`. -/
def extract_match_names (p : CommentProcessor) (c : RComment) : PyReturn :=
  if should_process_comment p c = false then .pyList []
  else
    match c.body with
    | none => .pySet []
    | some body =>
      let _valid := matchLoop p.config [] (findBracketMatches body)
      .pyNone

/-! ## Concrete processor fixtures -/

/-- The configuration of the C5 scenario: catalog `["steel joker"]`,
default pattern and settings. -/
def steelConfig : CommentProcessorConfig :=
  ⟨default_match_pattern, ["steel joker"], "balatro-joker-bot", [], true, 10, true⟩

/-- A processor instance over `steelConfig` (constructible only in the
model: `comment_processor_init` shows Python never produces one). -/
def steelProc : CommentProcessor := ⟨steelConfig, ⟨default_match_pattern, true⟩⟩

/-- The C5 scenario comment. -/
def steelComment : RComment :=
  ⟨"t1_c5", some "alice", some "I love [[Steel Joker]] and [[steel joker]]!"⟩

/-- Configuration for the cap scenario: `max_matches = 2`, three known
phrases. -/
def capConfig : CommentProcessorConfig :=
  ⟨default_match_pattern, ["aa", "bb", "cc"], "balatro-joker-bot", [], true, 2, true⟩

/-- A processor instance over `capConfig`. -/
def capProc : CommentProcessor := ⟨capConfig, ⟨default_match_pattern, true⟩⟩

/-- A comment referencing three distinct known phrases. -/
def capComment : RComment :=
  ⟨"t1_c8", some "bob", some "[[aa]] then [[bb]] then [[cc]]"⟩

/-- A generic comment for witnesses. -/
def plainComment : RComment := ⟨"t1_w", some "carol", some "hello [[aa]]"⟩

/-! ## Claim theorems — comment processor -/

/-- C3: for every configuration value — the well-formed default pattern
included — `CommentProcessor.__init__` raises `AttributeError` and never
completes: `_compile_pattern` reads the nonexistent `self.config.
joker_pattern` and the surrounding handler catches only `re.error`, so no
`CommentProcessor` instance is ever constructed. -/
theorem c3_init_always_raises_attribute_error
    (cfg : CommentProcessorConfig) :
    comment_processor_init cfg = .error (.attributeError "joker_pattern") := rfl

/-- C4: for every comment whose author is non-None,
`should_process_comment` returns `False` — the blacklist test reads the
nonexistent `self.user_blacklist`, and the `AttributeError` is converted to
`False` by the fail-closed handler — and `extract_match_names` returns the
empty list for every such comment (indeed for every comment, so no input
ever yields a non-empty match list). -/
theorem c4_gate_always_false_extract_always_empty
    (p : CommentProcessor) (c : RComment) :
    (c.author ≠ none →
      should_process_comment p c = false ∧
      should_process_body p c = .error (.attributeError "user_blacklist")) ∧
    extract_match_names p c = .pyList [] := by
  have hgate : should_process_comment p c = false := by
    unfold should_process_comment should_process_body
    cases h : c.author with
    | none => rfl
    | some n => rfl
  refine ⟨fun ha => ⟨hgate, ?_⟩, ?_⟩
  · unfold should_process_body
    cases h : c.author with
    | none => exact absurd h ha
    | some n => rfl
  · simp [extract_match_names, hgate]

/-- C4 witness: the gate rejects a concrete well-formed comment with a
non-None author, and its extraction is empty. -/
theorem c4_gate_witness :
    should_process_comment capProc plainComment = false ∧
    should_process_body capProc plainComment =
      .error (.attributeError "user_blacklist") ∧
    extract_match_names capProc plainComment = .pyList [] := by
  have h := c4_gate_always_false_extract_always_empty capProc plainComment
  exact ⟨(h.1 (by decide)).1, (h.1 (by decide)).2, h.2⟩

/-- C5: evaluating the code at the specification's scenario input — body
"I love [[Steel Joker]] and [[steel joker]]!" against catalog
["steel joker"] — yields the empty list, not the singleton match set the
claim requires: the gate always fails (and `__init__` cannot even build a
processor).  Moreover the discarded loop result would have held BOTH
"Steel Joker" and "steel joker", since the set stores cleaned matches
without lower-casing. -/
theorem c5_scenario_evaluates_to_empty :
    extract_match_names steelProc steelComment = .pyList [] ∧
    PyReturn.pyList [] ≠ PyReturn.pyList ["steel joker"] ∧
    comment_processor_init steelConfig = .error (.attributeError "joker_pattern") ∧
    matchLoop steelConfig []
        (findBracketMatches "I love [[Steel Joker]] and [[steel joker]]!") =
      ["Steel Joker", "steel joker"] := by
  refine ⟨?_, by decide, rfl, by decide⟩
  have h := c4_gate_always_false_extract_always_empty steelProc steelComment
  exact h.2

/-- C8: evaluating the code at a text with three distinct recognized
references under `max_matches = 2` yields the empty list, not the first
two references: the gate always fails and the `try` block never returns
its set.  The discarded loop does enforce the cap — it stops after two
entries, never evaluating the third candidate. -/
theorem c8_cap_text_evaluates_to_empty :
    extract_match_names capProc capComment = .pyList [] ∧
    PyReturn.pyList [] ≠ PyReturn.pyList ["aa", "bb"] ∧
    matchLoop capConfig []
        (findBracketMatches "[[aa]] then [[bb]] then [[cc]]") = ["aa", "bb"] := by
  refine ⟨?_, by decide, by decide⟩
  have h := c4_gate_always_false_extract_always_empty capProc capComment
  exact h.2

/-- The C9 failing record: four valid fields and a whitespace-only
availability. -/
def badAvailability : JokerCard :=
  ⟨"Blueprint", "Copies the Joker to the right", "Rare", "10", "   "⟩

/-- C9: `validate()` accepts a record whose availability is whitespace-only
while the other fields are valid, contradicting the claim that it then
returns `False`: the availability element of the conjunction checks the
length of `self.name` (models.py line 107), and a whitespace-only string is
truthy. -/
theorem c9_whitespace_availability_passes_validate :
    JokerCard.validate badAvailability = true ∧
    trimStr badAvailability.availability = "" ∧
    badAvailability.name ≠ "" ∧
    trimStr badAvailability.name ≠ "" ∧
    trimStr badAvailability.effect ≠ "" ∧
    trimStr badAvailability.rarity ≠ "" ∧
    trimStr badAvailability.cost ≠ "" := by
  refine ⟨by decide, by decide, by decide, by decide, by decide, by decide,
    by decide⟩

/-! ## Retry model — src/services/reddit_service.py

`_retry_on_failure(operation)` runs a `while retries < retry_limit` loop.
An operation is modelled as a deterministic fault schedule: attempt `n`
(zero-based) either succeeds (`none`) or raises the given fault.  The
exceptions the loop distinguishes are `RedditRateLimitError` (backoff and
retry, no inline budget check), `RedditConnectionError` /
`RedditServiceError` (backoff and retry, but re-raised unchanged when
`retries == retry_limit - 1`), and anything else — e.g.
`RedditAuthenticationError` — which no clause catches and which therefore
propagates at once.  Falling out of the loop raises
`RedditServiceError(f"Operation failed after {retry_limit} retries")`. -/

/-- The fault classes reaching `_retry_on_failure`. -/
inductive RFault
  | rateLimit
  | connError
  | serviceError
  | authError
deriving DecidableEq

/-- `connError` and `serviceError` are the Transient classes. -/
def isTransientFault : Option RFault → Bool
  | some RFault.connError => true
  | some RFault.serviceError => true
  | _ => false

/-- What `_retry_on_failure` ultimately raises: either one of the
operation's own exceptions re-raised unchanged, or the distinguished
`RedditServiceError("Operation failed after N retries")`. -/
inductive RaisedError
  | orig (f : RFault)
  | exhausted (limit : Nat)
deriving DecidableEq

/-- Result of `_retry_on_failure`: normal return or a raised exception. -/
inductive RetryResult
  | ok
  | raised (e : RaisedError)
deriving DecidableEq

/-- The retry loop.  `retries` is the Python counter; `fuel` equals
`retry_limit - retries`, so `fuel = 0` is exactly the loop exit
(`retries ≥ retry_limit`), which raises the exhaustion error.  The second
component counts how many times the operation was invoked. -/
def retryAux (op : Nat → Option RFault) (limit : Nat) :
    Nat → Nat → RetryResult × Nat
  | _, 0 => (.raised (.exhausted limit), 0)
  | retries, fuel + 1 =>
    match op retries with
    | none => (.ok, 1)
    | some RFault.rateLimit =>
      let r := retryAux op limit (retries + 1) fuel
      (r.1, r.2 + 1)
    | some RFault.authError => (.raised (.orig RFault.authError), 1)
    | some RFault.connError =>
      if retries = limit - 1 then (.raised (.orig RFault.connError), 1)
      else
        let r := retryAux op limit (retries + 1) fuel
        (r.1, r.2 + 1)
    | some RFault.serviceError =>
      if retries = limit - 1 then (.raised (.orig RFault.serviceError), 1)
      else
        let r := retryAux op limit (retries + 1) fuel
        (r.1, r.2 + 1)

/-- `RedditService._retry_on_failure` with `retry_limit = limit`: result
and total number of attempts made. -/
def retry_on_failure (op : Nat → Option RFault) (limit : Nat) :
    RetryResult × Nat :=
  retryAux op limit 0 limit

theorem retryAux_succ (op : Nat → Option RFault) (limit retries fuel : Nat) :
    retryAux op limit retries (fuel + 1) =
      match op retries with
      | none => (.ok, 1)
      | some RFault.rateLimit =>
        ((retryAux op limit (retries + 1) fuel).1,
         (retryAux op limit (retries + 1) fuel).2 + 1)
      | some RFault.authError => (.raised (.orig RFault.authError), 1)
      | some RFault.connError =>
        if retries = limit - 1 then (.raised (.orig RFault.connError), 1)
        else ((retryAux op limit (retries + 1) fuel).1,
              (retryAux op limit (retries + 1) fuel).2 + 1)
      | some RFault.serviceError =>
        if retries = limit - 1 then (.raised (.orig RFault.serviceError), 1)
        else ((retryAux op limit (retries + 1) fuel).1,
              (retryAux op limit (retries + 1) fuel).2 + 1) := rfl

theorem retryAux_all_transient (op : Nat → Option RFault) (limit : Nat)
    (f : RFault) (hf : op (limit - 1) = some f)
    (ht : ∀ n, n < limit → isTransientFault (op n) = true) :
    ∀ fuel retries, 1 ≤ fuel → retries + fuel = limit →
      retryAux op limit retries fuel = (.raised (.orig f), fuel) := by
  intro fuel
  induction fuel with
  | zero => omega
  | succ k ih =>
    intro retries _ hsum
    have hlt : retries < limit := by omega
    have htr := ht retries hlt
    cases k with
    | zero =>
      have hr : retries = limit - 1 := by omega
      have hop : op retries = some f := by rw [hr]; exact hf
      cases f with
      | rateLimit => rw [hop] at htr; simp [isTransientFault] at htr
      | authError => rw [hop] at htr; simp [isTransientFault] at htr
      | connError =>
        rw [retryAux_succ]
        simp only [hop]
        rw [if_pos hr]
      | serviceError =>
        rw [retryAux_succ]
        simp only [hop]
        rw [if_pos hr]
    | succ m =>
      have hne : retries ≠ limit - 1 := by omega
      have hrec := ih (retries + 1) (by omega) (by omega)
      cases hop : op retries with
      | none => rw [hop] at htr; simp [isTransientFault] at htr
      | some g =>
        cases g with
        | rateLimit => rw [hop] at htr; simp [isTransientFault] at htr
        | authError => rw [hop] at htr; simp [isTransientFault] at htr
        | connError =>
          rw [retryAux_succ]
          simp only [hop]
          rw [if_neg hne, hrec]
        | serviceError =>
          rw [retryAux_succ]
          simp only [hop]
          rw [if_neg hne, hrec]

/-! ## Control loops — src/application/joker_bot.py and src/reddit.py

Per-comment processing (extract → look up → format → reply) is abstracted
as a function returning `none` on success and `some fault` when handling
that comment raises.  Observables: the ids of the comments whose handling
completed, and where/whether faults were logged.  Neither loop lets a
comment fault escape to the caller. -/

/-- `RedditJokerBot.run` (joker_bot.py): ONE `try` wraps the whole
`for comment in stream` loop, so the first fault is caught outside the
loop — logged at stream level without the comment id — and the remaining
comments are never consumed.  Returns the processed ids and whether the
stream-level handler fired. -/
def run_joker_bot (process : RComment → Option PyError) :
    List RComment → List String × Bool
  | [] => ([], false)
  | c :: rest =>
    match process c with
    | none =>
      let r := run_joker_bot process rest
      (c.id :: r.1, r.2)
    | some _ => ([], true)

/-- `BalatroBot.run` (reddit.py): the `try`/`except`/`continue` sits inside
the loop around `_handle_comment`, whose own handler logs
`f"Failed to handle comment {comment.id}"` before re-raising, so a fault is
logged with the comment's id and the loop proceeds.  Returns the processed
ids and the ids whose handling failed (each logged). -/
def run_balatro_bot (process : RComment → Option PyError) :
    List RComment → List String × List String
  | [] => ([], [])
  | c :: rest =>
    match process c with
    | none =>
      let r := run_balatro_bot process rest
      (c.id :: r.1, r.2)
    | some _ =>
      let r := run_balatro_bot process rest
      (r.1, c.id :: r.2)

/-! ## Claim theorems — retry and control loop -/

/-- C6 counterexample: with `retry_limit = 3` and every attempt failing
with the Transient `RedditConnectionError`, `_retry_on_failure` makes 3
attempts and re-raises the underlying `RedditConnectionError` itself — not
an operation-level failure identifying retry exhaustion (that distinguished
error is reserved for the rate-limit path). -/
theorem c6_transient_reraises_underlying_fault :
    retry_on_failure (fun _ => some RFault.connError) 3 =
      (.raised (.orig RFault.connError), 3) ∧
    RaisedError.orig RFault.connError ≠ RaisedError.exhausted 3 := by
  refine ⟨by decide, by decide⟩

/-- C6 amended: when every attempt fails with a Transient fault
(`RedditConnectionError` or `RedditServiceError`), `_retry_on_failure`
makes exactly `retry_limit` total attempts — the initial attempt plus
`retry_limit - 1` retries — and then re-raises the final underlying fault
unchanged (the distinguished "Operation failed after N retries" error is
raised only when the budget is consumed by rate-limit faults); a Fatal
fault (`RedditAuthenticationError`, caught by no clause) propagates after a
single attempt, with zero retries. -/
theorem c6_retry_budget_and_fatal_amended :
    (∀ (limit : Nat) (op : Nat → Option RFault) (f : RFault),
      1 ≤ limit → (∀ n, n < limit → isTransientFault (op n) = true) →
      op (limit - 1) = some f →
      retry_on_failure op limit = (.raised (.orig f), limit)) ∧
    (∀ (limit : Nat) (op : Nat → Option RFault),
      1 ≤ limit → op 0 = some RFault.authError →
      retry_on_failure op limit = (.raised (.orig RFault.authError), 1)) := by
  constructor
  · intro limit op f hlim ht hf
    exact retryAux_all_transient op limit f hf ht limit 0 hlim (by omega)
  · intro limit op hlim h0
    obtain ⟨k, rfl⟩ : ∃ k, limit = k + 1 := ⟨limit - 1, by omega⟩
    simp only [retry_on_failure, retryAux, h0]

/-- C6 amended, witness: three persistent service errors exhaust a budget
of 3 with the underlying error re-raised; an authentication error is
raised after exactly one attempt. -/
theorem c6_retry_amended_witness :
    retry_on_failure (fun _ => some RFault.serviceError) 3 =
      (.raised (.orig RFault.serviceError), 3) ∧
    retry_on_failure (fun _ => some RFault.authError) 3 =
      (.raised (.orig RFault.authError), 1) := by
  constructor
  · exact c6_retry_budget_and_fatal_amended.1 3 (fun _ => some RFault.serviceError)
      RFault.serviceError (by omega) (fun n _ => rfl) rfl
  · exact c6_retry_budget_and_fatal_amended.2 3 (fun _ => some RFault.authError)
      (by omega) rfl

/-- A comment whose handling raises in the C2 counterexample. -/
def faultyComment : RComment := ⟨"t1_bad", some "dave", some "boom"⟩

/-- A well-behaved comment following the faulty one. -/
def healthyComment : RComment := ⟨"t1_good", some "erin", some "[[aa]]"⟩

/-- The C2 per-comment processing schedule: only `faultyComment` raises. -/
def c2Process (c : RComment) : Option PyError :=
  if c.id = "t1_bad" then some PyError.typeError else none

/-- C2 counterexample: in `RedditJokerBot.run` a fault on one comment
terminates processing of the remaining stream: with the stream
`[faultyComment, healthyComment]`, the healthy comment — which would have
processed cleanly — is never processed, and the handler that fired is the
stream-level one. -/
theorem c2_joker_bot_run_stops_at_first_fault :
    run_joker_bot c2Process [faultyComment, healthyComment] = ([], true) ∧
    c2Process healthyComment = none ∧
    run_balatro_bot c2Process [faultyComment, healthyComment] =
      (["t1_good"], ["t1_bad"]) := by
  refine ⟨by decide, by decide, by decide⟩

/-- C2 amended: in `BalatroBot.run` (reddit.py) the processed comments are
exactly those whose handling does not fault — a fault is logged with the
comment's id and the loop proceeds, so one comment's failure never affects
the rest — whereas in `RedditJokerBot.run` (joker_bot.py) the processed
comments are only the fault-free prefix of the stream: the first fault is
caught and logged at the stream boundary (without the comment id) and the
remaining comments are dropped, though the fault still never reaches the
caller. -/
theorem c2_per_comment_isolation_amended
    (process : RComment → Option PyError) (stream : List RComment) :
    (run_balatro_bot process stream).1 =
      (stream.filter (fun c => (process c).isNone)).map RComment.id ∧
    (run_balatro_bot process stream).2 =
      (stream.filter (fun c => (process c).isSome)).map RComment.id ∧
    (run_joker_bot process stream).1 =
      (stream.takeWhile (fun c => (process c).isNone)).map RComment.id := by
  induction stream with
  | nil => exact ⟨rfl, rfl, rfl⟩
  | cons c rest ih =>
    cases h : process c with
    | none =>
      refine ⟨?_, ?_, ?_⟩ <;>
        simp [run_balatro_bot, run_joker_bot, h, List.filter_cons,
          List.takeWhile, ih.1, ih.2.1, ih.2.2]
    | some e =>
      refine ⟨?_, ?_, ?_⟩ <;>
        simp [run_balatro_bot, run_joker_bot, h, List.filter_cons,
          List.takeWhile, ih.1, ih.2.1, ih.2.2]
